import Mathlib

/-
  Verification of the ETSIA ML API bootstrap (src/ETSIA_ML_API/app/main.py)
  against its natural-language specification.

  Shallow embedding conventions:
  * Python `str` is embedded as `List Char` (`PyStr`).
  * A Python exception is embedded by its string representation `str(exc)`.
  * A JSON-serialisable Python dict/list value is embedded as `JValue`;
    dict key order is preserved, as in Python.
  * `datetime.utcnow()` is embedded as a `DateTime` value handed to the
    handler by the (UTC) clock; `datetime.isoformat()` is embedded by
    `DateTime.isoformat` below.
  * Async handlers have no awaited state here, so they are pure functions.
-/

namespace ETSIA

/-- Embedding of Python `str`: a list of characters. -/
abbrev PyStr := List Char

/-- Embedding of a Python string literal. -/
def pys (s : String) : PyStr := s.data

/-- A Python exception, represented by `str(exc)`. -/
structure PyException where
  msg : PyStr
deriving DecidableEq, Repr

/-- Embedding of a JSON-serialisable Python value (dicts keep key order). -/
inductive JValue where
  | str (s : PyStr)
  | nat (n : Nat)
  | obj (fields : List (PyStr × JValue))
  | arr (elems : List JValue)
deriving Repr

/-- First value bound to a key in an ordered field list (Python dict lookup). -/
def jget : List (PyStr × JValue) → PyStr → Option JValue
  | [], _ => none
  | (k, v) :: rest, key => if k = key then some v else jget rest key

/-- Key lookup on a JSON object; `none` on non-objects. -/
def jlookup : JValue → PyStr → Option JValue
  | .obj fs, key => jget fs key
  | _, _ => none

/-- The ordered key list of a JSON object (Python dict insertion order). -/
def keysOf : JValue → List PyStr
  | .obj fs => fs.map Prod.fst
  | _ => []

/-- Embedding of a Python `datetime` (as produced by `datetime.utcnow()`). -/
structure DateTime where
  year : Nat
  month : Nat
  day : Nat
  hour : Nat
  minute : Nat
  second : Nat
  microsecond : Nat
deriving DecidableEq, Repr

/-- The field ranges `datetime` enforces at construction. -/
def DateTime.isValid (d : DateTime) : Prop :=
  1 ≤ d.year ∧ d.year ≤ 9999 ∧ 1 ≤ d.month ∧ d.month ≤ 12 ∧
  1 ≤ d.day ∧ d.day ≤ 31 ∧ d.hour ≤ 23 ∧ d.minute ≤ 59 ∧
  d.second ≤ 59 ∧ d.microsecond ≤ 999999

instance (d : DateTime) : Decidable d.isValid := by
  unfold DateTime.isValid; infer_instance

/-- The character for a decimal digit (`'0'` + d). -/
def digitCh (n : Nat) : Char := Char.ofNat (48 + n)

/-- Two-digit zero-padded decimal rendering (`%02d` for in-range input). -/
def pad2 (n : Nat) : PyStr := [digitCh (n / 10), digitCh (n % 10)]

/-- Four-digit zero-padded decimal rendering (`%04d` for in-range input). -/
def pad4 (n : Nat) : PyStr :=
  [digitCh (n / 1000), digitCh (n / 100 % 10), digitCh (n / 10 % 10), digitCh (n % 10)]

/-- Six-digit zero-padded decimal rendering (`%06d` for in-range input). -/
def pad6 (n : Nat) : PyStr :=
  [digitCh (n / 100000), digitCh (n / 10000 % 10), digitCh (n / 1000 % 10),
   digitCh (n / 100 % 10), digitCh (n / 10 % 10), digitCh (n % 10)]

/-- Embedding of CPython `datetime.isoformat()`: `YYYY-MM-DDTHH:MM:SS`,
followed by `.ffffff` exactly when the microsecond field is nonzero. -/
def DateTime.isoformat (d : DateTime) : PyStr :=
  pad4 d.year ++ '-' :: pad2 d.month ++ '-' :: pad2 d.day ++
  'T' :: pad2 d.hour ++ ':' :: pad2 d.minute ++ ':' :: pad2 d.second ++
  (if d.microsecond = 0 then [] else '.' :: pad6 d.microsecond)

/-- Whether a character is a decimal digit. -/
def isDigitCh (c : Char) : Bool := 48 ≤ c.toNat && c.toNat ≤ 57

/-- Recogniser for ISO-8601 date-time strings of the two shapes
`YYYY-MM-DDTHH:MM:SS` and `YYYY-MM-DDTHH:MM:SS.ffffff`. -/
def isISO8601 (s : PyStr) : Bool :=
  match s with
  | [y1, y2, y3, y4, s1, m1, m2, s2, d1, d2, t, h1, h2, c1, n1, n2, c2, e1, e2] =>
      isDigitCh y1 && isDigitCh y2 && isDigitCh y3 && isDigitCh y4 &&
      (s1 == '-') && isDigitCh m1 && isDigitCh m2 && (s2 == '-') &&
      isDigitCh d1 && isDigitCh d2 && (t == 'T') &&
      isDigitCh h1 && isDigitCh h2 && (c1 == ':') &&
      isDigitCh n1 && isDigitCh n2 && (c2 == ':') &&
      isDigitCh e1 && isDigitCh e2
  | [y1, y2, y3, y4, s1, m1, m2, s2, d1, d2, t, h1, h2, c1, n1, n2, c2, e1, e2,
     dot, u1, u2, u3, u4, u5, u6] =>
      isDigitCh y1 && isDigitCh y2 && isDigitCh y3 && isDigitCh y4 &&
      (s1 == '-') && isDigitCh m1 && isDigitCh m2 && (s2 == '-') &&
      isDigitCh d1 && isDigitCh d2 && (t == 'T') &&
      isDigitCh h1 && isDigitCh h2 && (c1 == ':') &&
      isDigitCh n1 && isDigitCh n2 && (c2 == ':') &&
      isDigitCh e1 && isDigitCh e2 && (dot == '.') &&
      isDigitCh u1 && isDigitCh u2 && isDigitCh u3 &&
      isDigitCh u4 && isDigitCh u5 && isDigitCh u6
  | _ => false

/-- Modelled from the spec: `app.config.settings` is not under the supplied
source; per the spec it carries the API title, version and description
strings, the comma-separated CORS allow-list string, and a log level,
loaded once at process start and immutable thereafter. -/
structure Settings where
  API_TITLE : PyStr
  API_VERSION : PyStr
  API_DESCRIPTION : PyStr
  CORS_ORIGINS : PyStr
  LOG_LEVEL : PyStr
deriving Repr

/-- Modelled from the spec: the Model Descriptor of `app.core.model_registry`
(not under the supplied source) — name, version, author, default flag, and
the capability handle, of which only the health-check outcome matters here:
`healthCheck` is the result of invoking the classifier's own health check,
an exception or its own health payload. -/
structure Descriptor where
  name : PyStr
  version : PyStr
  author : PyStr
  is_default : Bool
  healthCheck : Except PyException JValue

/-- Modelled from the spec: the Registry is a process-wide mapping from model
name to Descriptor; insertion order is kept, as in a Python dict. -/
abbrev Registry := List Descriptor

/-- A Descriptor with its default flag cleared. -/
def clearDefault (d : Descriptor) : Descriptor := { d with is_default := false }

/-- Modelled from the spec: `register(descriptor, set_as_default)` inserts a
Descriptor keyed by its name; if `set_as_default` is true it clears any prior
default flag and marks this one default, otherwise the entry is not default. -/
def register (r : Registry) (d : Descriptor) (set_as_default : Bool) : Registry :=
  if set_as_default then
    r.map clearDefault ++ [{ d with is_default := true }]
  else
    r ++ [{ d with is_default := false }]

/-- The per-model summary returned by `list_models()`. -/
structure ModelInfo where
  version : PyStr
  author : PyStr
  is_default : Bool
deriving DecidableEq, Repr

/-- Modelled from the spec: `list_models()` returns a read-only snapshot
mapping each registered name to its version, author and default flag. -/
def list_models (r : Registry) : List (PyStr × ModelInfo) :=
  r.map fun d => (d.name, ⟨d.version, d.author, d.is_default⟩)

/-- The entry `health_check_all` reports for a model whose own health check
raised: an unhealthy status carrying the exception text, in place of the
payload the model never produced. -/
def unhealthyReport (e : PyException) : JValue :=
  .obj [(pys "status", .str (pys "unhealthy")), (pys "error", .str e.msg)]

/-- Modelled from the spec: `health_check_all()` invokes each registered
classifier's own health check and collects the results keyed by model name;
a failing individual check is isolated and reported as an unhealthy status
for that entry instead of propagating. The function is total: no exception
escapes it. -/
def health_check_all (r : Registry) : List (PyStr × JValue) :=
  r.map fun d =>
    (d.name, match d.healthCheck with
             | .ok v => v
             | .error e => unhealthyReport e)

/-- Embedding of the `root` handler (`GET /`, main.py lines 96-103): a static
dict of service metadata. -/
def root (s : Settings) : JValue :=
  .obj [(pys "message", .str (pys "API de Détection de Dépression")),
        (pys "version", .str s.API_VERSION),
        (pys "docs", .str (pys "/docs")),
        (pys "health", .str (pys "/health"))]

/-- Embedding of the `health` handler (`GET /health`, main.py lines 112-126):
reads one `health_check_all()` and one `list_models()` snapshot from the
registry and assembles the response dict; `now` is the value of
`datetime.utcnow()` at the call. -/
def health (s : Settings) (now : DateTime) (r : Registry) : JValue :=
  .obj [(pys "status", .str (pys "healthy")),
        (pys "version", .str s.API_VERSION),
        (pys "timestamp", .str now.isoformat),
        (pys "models",
          .obj [(pys "total", .nat (list_models r).length),
                (pys "available", .arr ((list_models r).map fun p => .str p.1)),
                (pys "health", .obj (health_check_all r))])]

/-- Embedding of `global_exception_handler` (main.py lines 129-140): any
unhandled exception is turned into a status-500 JSONResponse whose body has
exactly the keys `error`, `detail`, `timestamp`; `now` is the value of
`datetime.utcnow()` at the call. -/
def global_exception_handler (exc : PyException) (now : DateTime) : Nat × JValue :=
  (500,
   .obj [(pys "error", .str (pys "Erreur interne du serveur")),
         (pys "detail", .str exc.msg),
         (pys "timestamp", .str now.isoformat)])

/-- Embedding of the try/except block of `startup_event` (main.py lines
51-56): `construction` is the outcome of importing and constructing
`YansnetLLMModel()`; on success the model is registered as default, on
exception the error is logged and the registry is left as it was. The
`Except` codomain records whether an exception escapes the handler. -/
def startup_event (construction : Except PyException Descriptor)
    (r : Registry) : Except PyException Registry :=
  match construction with
  | .ok d => .ok (register r d true)
  | .error _ => .ok r

/-- Embedding of the CORS allow-origin list (main.py line 28):
`settings.CORS_ORIGINS.split(",")`. `splitComma` below is the embedding of
Python `str.split` with an explicit one-character separator. -/
def splitComma : PyStr → List PyStr
  | [] => [[]]
  | c :: rest =>
      if c = ',' then [] :: splitComma rest
      else
        match splitComma rest with
        | h :: t => (c :: h) :: t
        | [] => [[c]]

/-- The `allow_origins` argument passed to the CORS middleware. -/
def allow_origins (s : Settings) : List PyStr := splitComma s.CORS_ORIGINS

/-- One observable event of the process: the startup lifecycle hook (the only
place `register` is called) or one of the two request-time handlers. -/
inductive Event where
  | startup (construction : Except PyException Descriptor)
  | getRoot
  | getHealth (now : DateTime)

/-- One step of the process: how an event transforms the registry and what
response body, if any, it emits. Request-time events only read the registry. -/
def execEvent (s : Settings) (r : Registry) : Event → Registry × Option JValue
  | .startup c =>
      (match startup_event c r with
       | .ok r2 => r2
       | .error _ => r, none)
  | .getRoot => (r, some (root s))
  | .getHealth now => (r, some (health s now r))

/-- The registry after a sequence of events. -/
def runEvents (s : Settings) (r : Registry) : List Event → Registry
  | [] => r
  | e :: es => runEvents s (execEvent s r e).1 es

/-- Whether an event is a request-time event (not the startup hook). -/
def isRequest : Event → Bool
  | .startup _ => false
  | .getRoot => true
  | .getHealth _ => true

/-- The registry obtained by replaying a sequence of `register` calls. -/
def applyCalls (r : Registry) (calls : List (Descriptor × Bool)) : Registry :=
  calls.foldl (fun acc p => register acc p.1 p.2) r

/-- Number of registered Descriptors whose default flag is set. -/
def countDefaults (r : Registry) : Nat :=
  (r.filter fun d => d.is_default).length

/-- Embedding of Python `",".join`, the inverse view of `splitComma`. -/
def joinComma : List PyStr → PyStr
  | [] => []
  | [x] => x
  | x :: y :: t => x ++ ',' :: joinComma (y :: t)

theorem isDigitCh_digitCh {n : Nat} (h : n ≤ 9) : isDigitCh (digitCh n) = true := by
  interval_cases n <;> decide

theorem isISO8601_isoformat (d : DateTime) (h : d.isValid) :
    isISO8601 d.isoformat = true := by
  obtain ⟨h1, h2, h3, h4, h5, h6, h7, h8, h9, h10⟩ := h
  unfold DateTime.isoformat pad4 pad2 pad6
  by_cases hm : d.microsecond = 0
  · rw [if_pos hm]
    simp only [List.cons_append, List.nil_append, List.append_nil]
    simp only [isISO8601, Bool.and_eq_true, beq_self_eq_true, and_true, true_and]
    repeat' apply And.intro
    all_goals exact isDigitCh_digitCh (by omega)
  · rw [if_neg hm]
    simp only [List.cons_append, List.nil_append, List.append_nil]
    simp only [isISO8601, Bool.and_eq_true, beq_self_eq_true, and_true, true_and]
    repeat' apply And.intro
    all_goals exact isDigitCh_digitCh (by omega)

theorem filter_clearDefault (r : Registry) :
    ((r.map clearDefault).filter fun d => d.is_default) = [] := by
  induction r with
  | nil => rfl
  | cons d t ih => simp [clearDefault, ih]

theorem all_clearDefault (r : Registry) :
    ((r.map clearDefault).all fun d => !d.is_default) = true := by
  induction r with
  | nil => rfl
  | cons d t ih => simp [clearDefault, ih]

theorem countDefaults_register_true (r : Registry) (d : Descriptor) :
    countDefaults (register r d true) = 1 := by
  simp [register, countDefaults, List.filter_append, filter_clearDefault]

theorem countDefaults_register_false (r : Registry) (d : Descriptor) :
    countDefaults (register r d false) = countDefaults r := by
  simp [register, countDefaults, List.filter_append]

theorem countDefaults_applyCalls (calls : List (Descriptor × Bool)) :
    ∀ r : Registry, countDefaults r ≤ 1 → countDefaults (applyCalls r calls) ≤ 1 := by
  induction calls with
  | nil => intro r h; exact h
  | cons p t ih =>
      intro r h
      have hstep : countDefaults (register r p.1 p.2) ≤ 1 := by
        cases hb : p.2 with
        | true => rw [countDefaults_register_true]
        | false => rw [countDefaults_register_false]; exact h
      exact ih (register r p.1 p.2) hstep

theorem splitComma_ne_nil (s : PyStr) : splitComma s ≠ [] := by
  induction s with
  | nil => simp [splitComma]
  | cons c rest ih =>
      unfold splitComma
      by_cases hc : c = ','
      · rw [if_pos hc]; simp
      · rw [if_neg hc]
        cases h : splitComma rest with
        | nil => simp
        | cons y t => simp

theorem joinComma_splitComma (s : PyStr) : joinComma (splitComma s) = s := by
  induction s with
  | nil => rfl
  | cons c rest ih =>
      unfold splitComma
      by_cases hc : c = ','
      · rw [if_pos hc]
        obtain ⟨y, t, h⟩ := List.exists_cons_of_ne_nil (splitComma_ne_nil rest)
        rw [h]
        show ',' :: joinComma (y :: t) = c :: rest
        rw [← h, ih, hc]
      · rw [if_neg hc]
        obtain ⟨y, t, h⟩ := List.exists_cons_of_ne_nil (splitComma_ne_nil rest)
        rw [h]
        cases t with
        | nil =>
            show c :: y = c :: rest
            have : joinComma (splitComma rest) = rest := ih
            rw [h] at this
            simp [joinComma] at this
            rw [this]
        | cons t0 ts =>
            show (c :: y) ++ ',' :: joinComma (t0 :: ts) = c :: rest
            have : joinComma (splitComma rest) = rest := ih
            rw [h] at this
            simp only [joinComma, List.cons_append] at this ⊢
            rw [this]

/-- C1: for every unhandled exception reaching the boundary, the global
exception handler returns HTTP status 500 with a JSON body holding exactly
the keys `error` (the fixed generic message), `detail` (the exception's
string representation) and `timestamp` (`datetime.utcnow().isoformat()`,
an ISO-8601 rendering of the UTC clock); the handler is a total function,
so no exception escapes and no bare stack trace is returned. -/
theorem global_exception_handler_spec (exc : PyException) (now : DateTime)
    (hn : now.isValid) :
    (global_exception_handler exc now).1 = 500 ∧
    keysOf (global_exception_handler exc now).2 =
      [pys "error", pys "detail", pys "timestamp"] ∧
    jlookup (global_exception_handler exc now).2 (pys "error") =
      some (.str (pys "Erreur interne du serveur")) ∧
    jlookup (global_exception_handler exc now).2 (pys "detail") =
      some (.str exc.msg) ∧
    jlookup (global_exception_handler exc now).2 (pys "timestamp") =
      some (.str now.isoformat) ∧
    isISO8601 now.isoformat = true :=
  ⟨rfl, rfl, rfl, rfl, rfl, isISO8601_isoformat now hn⟩

/-- C1 witness, at a concrete exception and clock value. -/
theorem global_exception_handler_spec_witness :
    (⟨2026, 10, 12, 3, 4, 5, 123456⟩ : DateTime).isValid ∧
    (global_exception_handler ⟨pys "boom"⟩ ⟨2026, 10, 12, 3, 4, 5, 123456⟩).1 = 500 :=
  ⟨by decide,
   (global_exception_handler_spec ⟨pys "boom"⟩ ⟨2026, 10, 12, 3, 4, 5, 123456⟩
     (by decide)).1⟩

/-- C2: for every registry state (the empty one included), `GET /health`
returns top-level status literally `"healthy"` — never a degraded value —
together with the API version, the timestamp, and a `models` object holding
the total count, the available names, and the `health_check_all()` map. -/
theorem health_spec (s : Settings) (now : DateTime) (r : Registry) :
    jlookup (health s now r) (pys "status") = some (.str (pys "healthy")) ∧
    jlookup (health s now r) (pys "version") = some (.str s.API_VERSION) ∧
    jlookup (health s now r) (pys "timestamp") = some (.str now.isoformat) ∧
    jlookup (health s now r) (pys "models") =
      some (.obj [(pys "total", .nat (list_models r).length),
                  (pys "available", .arr ((list_models r).map fun p => .str p.1)),
                  (pys "health", .obj (health_check_all r))]) ∧
    (r = [] → jlookup (health s now r) (pys "models") =
      some (.obj [(pys "total", .nat 0), (pys "available", .arr []),
                  (pys "health", .obj [])])) := by
  refine ⟨rfl, rfl, rfl, rfl, ?_⟩
  rintro rfl
  rfl

/-- C2 witness, at a concrete settings value, clock value and the empty
registry. -/
theorem health_spec_witness :
    ([] : Registry) = [] ∧
    jlookup (health ⟨pys "t", pys "1.0", pys "d", pys "", pys "info"⟩
        ⟨2026, 10, 12, 3, 4, 5, 0⟩ []) (pys "status") =
      some (.str (pys "healthy")) :=
  ⟨rfl,
   (health_spec ⟨pys "t", pys "1.0", pys "d", pys "", pys "info"⟩
     ⟨2026, 10, 12, 3, 4, 5, 0⟩ []).1⟩

/-- C6: `GET /` is side-effect-free and idempotent — its body depends on
nothing but the process-lifetime-immutable settings, so two calls in one
process return the same body; its keys are `message`, `version`, `docs`,
`health`, with `message`, `docs` and `health` fixed literals independent of
the settings and `version` taken from the settings; handling the request
leaves the registry untouched. -/
theorem root_spec (s : Settings) :
    keysOf (root s) = [pys "message", pys "version", pys "docs", pys "health"] ∧
    jlookup (root s) (pys "message") =
      some (.str (pys "API de Détection de Dépression")) ∧
    jlookup (root s) (pys "version") = some (.str s.API_VERSION) ∧
    jlookup (root s) (pys "docs") = some (.str (pys "/docs")) ∧
    jlookup (root s) (pys "health") = some (.str (pys "/health")) ∧
    (∀ s2 : Settings, jlookup (root s) (pys "message") = jlookup (root s2) (pys "message") ∧
      jlookup (root s) (pys "docs") = jlookup (root s2) (pys "docs") ∧
      jlookup (root s) (pys "health") = jlookup (root s2) (pys "health")) ∧
    ∀ r : Registry, (execEvent s r .getRoot).1 = r :=
  ⟨rfl, rfl, rfl, rfl, rfl, fun _ => ⟨rfl, rfl, rfl⟩, fun _ => rfl⟩

/-- C9: in every `GET /health` response, `models.total` equals the length of
`models.available`, both being computed from the same single `list_models()`
snapshot. -/
theorem health_total_eq_available (s : Settings) (now : DateTime) (r : Registry) :
    ∃ m : JValue, jlookup (health s now r) (pys "models") = some m ∧
      jlookup m (pys "total") = some (.nat (list_models r).length) ∧
      jlookup m (pys "available") =
        some (.arr ((list_models r).map fun p => .str p.1)) ∧
      (list_models r).length = ((list_models r).map fun p => (JValue.str p.1)).length := by
  refine ⟨_, rfl, rfl, rfl, ?_⟩
  rw [List.length_map]

/-- C5: replaying any sequence of `register` calls from the empty registry
leaves at most one Descriptor with `is_default = true` (every prefix of a
sequence being itself a sequence, this holds after each call); moreover a
call with `set_as_default = true` first clears every previously held default
flag and then marks exactly the new entry. -/
theorem register_default_invariant :
    (∀ calls : List (Descriptor × Bool), countDefaults (applyCalls [] calls) ≤ 1) ∧
    (∀ (r : Registry) (d : Descriptor),
      countDefaults (register r d true) = 1 ∧
      ((register r d true).dropLast.all fun e => !e.is_default) = true) := by
  constructor
  · intro calls
    exact countDefaults_applyCalls calls [] (by simp [countDefaults])
  · intro r d
    refine ⟨countDefaults_register_true r d, ?_⟩
    simp only [register, if_pos]
    rw [List.dropLast_concat]
    exact all_clearDefault r

/-- C10: the CORS allow-origin list is exactly the comma-separated split of
the configured `CORS_ORIGINS` string; the split of the empty string is the
one-element list containing the empty string (never the empty list), and
joining the origins back with commas recovers the configuration string
verbatim, so whitespace around commas is preserved in each origin. -/
theorem allow_origins_spec (s : Settings) :
    allow_origins s = splitComma s.CORS_ORIGINS ∧
    (s.CORS_ORIGINS = [] → allow_origins s = [[]]) ∧
    allow_origins s ≠ [] ∧
    joinComma (allow_origins s) = s.CORS_ORIGINS := by
  refine ⟨rfl, ?_, splitComma_ne_nil s.CORS_ORIGINS, joinComma_splitComma s.CORS_ORIGINS⟩
  intro h
  simp [allow_origins, h, splitComma]

/-- C10 witness, at a settings value whose CORS configuration string is
empty. -/
theorem allow_origins_spec_witness :
    (pys "" = ([] : PyStr)) ∧
    allow_origins ⟨pys "t", pys "1.0", pys "d", pys "", pys "info"⟩ = [[]] :=
  ⟨rfl, (allow_origins_spec ⟨pys "t", pys "1.0", pys "d", pys "", pys "info"⟩).2.1 rfl⟩

theorem runEvents_requests (s : Settings) (es : List Event)
    (h : es.all isRequest = true) : ∀ r, runEvents s r es = r := by
  induction es with
  | nil => intro r; rfl
  | cons e t ih =>
      intro r
      rw [List.all_cons, Bool.and_eq_true] at h
      cases e with
      | startup c => simp [isRequest] at h
      | getRoot => exact ih h.2 r
      | getHealth now => exact ih h.2 r

theorem health_check_all_get (r : Registry) (i : Nat) (h : i < r.length) :
    (health_check_all r).get ⟨i, by simpa [health_check_all] using h⟩ =
      ((r.get ⟨i, h⟩).name,
       match (r.get ⟨i, h⟩).healthCheck with
       | .ok v => v
       | .error e => unhealthyReport e) := by
  simp [health_check_all, List.get_eq_getElem, List.getElem_map]

/-- C3: whatever the outcome of constructing and registering the candidate
model at startup, `startup_event` catches the failure and returns normally
(its result is always `.ok`); when construction raises, the registry is left
exactly as it was, so starting from the empty registry the service comes up
with `list_models()` empty. -/
theorem startup_event_spec (c : Except PyException Descriptor) (r : Registry) :
    (∃ r2, startup_event c r = .ok r2) ∧
    (∀ e, c = .error e → startup_event c r = .ok r) ∧
    (∀ e, c = .error e → ∀ r2, startup_event c [] = .ok r2 → list_models r2 = []) := by
  refine ⟨?_, ?_, ?_⟩
  · cases c with
    | ok d => exact ⟨_, rfl⟩
    | error e => exact ⟨r, rfl⟩
  · rintro e rfl
    rfl
  · rintro e rfl r2 hr2
    simp only [startup_event, Except.ok.injEq] at hr2
    rw [← hr2]
    rfl

/-- C3 witness, at a concrete construction failure and the empty registry. -/
theorem startup_event_spec_witness :
    (Except.error ⟨pys "no API keys"⟩ : Except PyException Descriptor) =
      .error ⟨pys "no API keys"⟩ ∧
    startup_event (.error ⟨pys "no API keys"⟩) [] = .ok [] :=
  ⟨rfl, (startup_event_spec (.error ⟨pys "no API keys"⟩) []).2.1
          ⟨pys "no API keys"⟩ rfl⟩

/-- C4: for a registry with N models of which the one at position `i` raises
during its own health check, `health_check_all()` still returns N entries
(the function is total, so the exception does not propagate), reports that
entry as an unhealthy status carrying the exception text, and reports every
entry whose own check succeeds with its own real payload. -/
theorem health_check_all_isolation (r : Registry) (i : Fin r.length)
    (e : PyException) (hfail : (r.get i).healthCheck = .error e) :
    (health_check_all r).length = r.length ∧
    (health_check_all r).get ⟨i.1, by simp [health_check_all]⟩ =
      ((r.get i).name, unhealthyReport e) ∧
    jlookup (unhealthyReport e) (pys "status") = some (.str (pys "unhealthy")) ∧
    ∀ (j : Fin r.length) (v : JValue), (r.get j).healthCheck = .ok v →
      (health_check_all r).get ⟨j.1, by simp [health_check_all]⟩ =
        ((r.get j).name, v) := by
  refine ⟨by simp [health_check_all], ?_, rfl, ?_⟩
  · rw [health_check_all_get r i.1 i.2]
    rw [List.get_eq_getElem] at hfail
    simp [hfail]
  · intro j v hok
    rw [health_check_all_get r j.1 j.2]
    rw [List.get_eq_getElem] at hok
    simp [hok]

/-- C4 witness, at a concrete two-model registry whose second model raises
during its health check while the first reports its own payload. -/
theorem health_check_all_isolation_witness :
    (([⟨pys "a", pys "1", pys "x", true, .ok (.str (pys "model a fine"))⟩,
       ⟨pys "b", pys "2", pys "y", false, .error ⟨pys "boom"⟩⟩] : Registry).get
        ⟨1, by decide⟩).healthCheck = .error ⟨pys "boom"⟩ ∧
    (health_check_all
      [⟨pys "a", pys "1", pys "x", true, .ok (.str (pys "model a fine"))⟩,
       ⟨pys "b", pys "2", pys "y", false, .error ⟨pys "boom"⟩⟩]).length =
      ([⟨pys "a", pys "1", pys "x", true, .ok (.str (pys "model a fine"))⟩,
        ⟨pys "b", pys "2", pys "y", false, .error ⟨pys "boom"⟩⟩] : Registry).length :=
  ⟨rfl,
   (health_check_all_isolation
     [⟨pys "a", pys "1", pys "x", true, .ok (.str (pys "model a fine"))⟩,
      ⟨pys "b", pys "2", pys "y", false, .error ⟨pys "boom"⟩⟩]
     ⟨1, by decide⟩ ⟨pys "boom"⟩ rfl).1⟩

/-- C7: `register` is reachable only through the startup event of the
process model (mirroring main.py, where `registry.register` occurs only in
`startup_event`); replaying any sequence of request-time events (`GET /`
and `GET /health`) leaves the registry exactly as it was, and each of the
two request handlers taken alone preserves it. -/
theorem registry_read_only (s : Settings) (r : Registry) (es : List Event)
    (h : es.all isRequest = true) :
    runEvents s r es = r ∧
    (execEvent s r .getRoot).1 = r ∧
    (∀ now, (execEvent s r (.getHealth now)).1 = r) :=
  ⟨runEvents_requests s es h r, rfl, fun _ => rfl⟩

/-- C7 witness, replaying a concrete root request followed by a health
request. -/
theorem registry_read_only_witness :
    ([Event.getRoot, Event.getHealth ⟨2026, 10, 12, 3, 4, 5, 0⟩].all isRequest
      = true) ∧
    runEvents ⟨pys "t", pys "1.0", pys "d", pys "", pys "info"⟩ []
      [Event.getRoot, Event.getHealth ⟨2026, 10, 12, 3, 4, 5, 0⟩] = [] :=
  ⟨rfl,
   (registry_read_only ⟨pys "t", pys "1.0", pys "d", pys "", pys "info"⟩ []
     [Event.getRoot, Event.getHealth ⟨2026, 10, 12, 3, 4, 5, 0⟩] rfl).1⟩

/-- C8: every timestamp the façade emits — the `timestamp` field of every
`GET /health` response and of every error body from the global exception
handler — is `now.isoformat` for the `now` read from the UTC clock
(`datetime.utcnow()`), and that string is in ISO-8601 form. -/
theorem timestamps_utc_iso (s : Settings) (r : Registry) (exc : PyException)
    (now : DateTime) (hn : now.isValid) :
    jlookup (health s now r) (pys "timestamp") = some (.str now.isoformat) ∧
    jlookup (global_exception_handler exc now).2 (pys "timestamp") =
      some (.str now.isoformat) ∧
    isISO8601 now.isoformat = true :=
  ⟨rfl, rfl, isISO8601_isoformat now hn⟩

/-- C8 witness, at a concrete clock value with nonzero microseconds. -/
theorem timestamps_utc_iso_witness :
    (⟨2026, 1, 2, 13, 14, 15, 999999⟩ : DateTime).isValid ∧
    isISO8601 (DateTime.isoformat ⟨2026, 1, 2, 13, 14, 15, 999999⟩) = true :=
  ⟨by decide,
   (timestamps_utc_iso ⟨pys "t", pys "1.0", pys "d", pys "", pys "info"⟩ []
     ⟨pys "boom"⟩ ⟨2026, 1, 2, 13, 14, 15, 999999⟩ (by decide)).2.2⟩

end ETSIA
